import Mathlib

/-!
Shallow embedding of `src/fs/at.rs` from the rustix `*at` wrapper layer.

Modelling conventions:
- A path argument is a list of bytes (`Path := List Nat`).
- Native (libc / raw syscall) entry points are external to the layer; each
  wrapper is parametrised over an oracle function giving the native call's
  return value (and, where the call writes through a pointer, the written
  data).  The thread-local `errno` slot is an extra `Int` parameter.
- Every wrapper returns its result together with the list of native calls it
  issued (`List SysCall`), so that "no native call is made" is expressible.
- `io::Result` becomes `Except Error`; the conversion error from `PathArg`
  and OS errors are the two constructors of `Error`.
-/

namespace RustixAt

/-- Errors surfaced by the wrappers: either a path-conversion failure
(the `InvalidInput`-style error produced before any native call), or an OS
error carrying the native `errno` value verbatim. -/
inductive Error where
  | invalidInput : Error
  | osError (errno : Int) : Error
deriving DecidableEq, Repr

/-- A path as a sequence of bytes. -/
abbrev Path := List Nat

/-- Modelled from the spec: the `PathArg::as_cstr` conversion (the `PathArg`
trait is an external collaborator, not in `src/fs/at.rs`).  Per the spec it
must "produce a borrowed null-terminated byte view, or fail with an
encoding/embedded-null error before any native call is attempted"; so a path
containing an embedded null byte fails, any other byte string succeeds. -/
def as_cstr (p : Path) : Except Error Path :=
  if p.contains 0 then .error .invalidInput else .ok p

/-- Modelled from the spec: the `negone_err` return-code translator (defined
outside `src/fs/at.rs`): "a strictly negative return means failure, error
code in the platform's last-error slot"; the native code is preserved
unchanged. -/
def negone_err (errno : Int) (t : Int) : Except Error Int :=
  if t < 0 then .error (.osError errno) else .ok t

/-- Modelled from the spec: the `zero_ok` return-code translator (defined
outside `src/fs/at.rs`): "a non-zero return means failure", error code taken
from the last-error slot unchanged. -/
def zero_ok (errno : Int) (t : Int) : Except Error Unit :=
  if t ≠ 0 then .error (.osError errno) else .ok ()

/-- The value of `libc::AT_FDCWD`, the reserved "current working directory"
sentinel (its Linux value). -/
def AT_FDCWD : Int := -100

/-- A record of one native call issued by the layer, with the exact arguments
forwarded to it. -/
inductive SysCall where
  | openat (dirfd : Int) (path : Path) (oflags mode : Nat)
  | readlinkat (dirfd : Int) (path : Path) (bufsize : Nat)
  | mkdirat (dirfd : Int) (path : Path) (mode : Nat)
  | linkat (old_dirfd : Int) (old_path : Path) (new_dirfd : Int) (new_path : Path) (flags : Nat)
  | unlinkat (dirfd : Int) (path : Path) (flags : Nat)
  | renameat (old_dirfd : Int) (old_path : Path) (new_dirfd : Int) (new_path : Path)
  | symlinkat (old_path : Path) (new_dirfd : Int) (new_path : Path)
  | fstatat (dirfd : Int) (path : Path) (flags : Nat)
  | faccessat (dirfd : Int) (path : Path) (access flags : Nat)
  | utimensat (dirfd : Int) (path : Path) (times : (Int × Int) × (Int × Int)) (flags : Nat)
  | fchmodat (dirfd : Int) (path : Path) (mode flags : Nat)
  | sys_fchmodat (dirfd : Int) (path : Path) (mode : Nat)
  | fclonefileat (srcfd dst_dirfd : Int) (dst : Path) (flags : Nat)
  | close (fd : Int)
deriving DecidableEq, Repr

/-- An owned `fs::File`: holds a raw file descriptor. -/
structure File where
  fd : Int
deriving DecidableEq, Repr

/-- Dropping an owned `fs::File` closes its descriptor. -/
def File.drop (f : File) : List SysCall := [.close f.fd]

/-- `ManuallyDrop<fs::File>`: the same handle, with automatic cleanup
suppressed. -/
structure ManuallyDropFile where
  value : File
deriving DecidableEq, Repr

/-- Dropping a `ManuallyDrop` wrapper runs no cleanup: no native call is
issued and the wrapped descriptor is not closed. -/
def ManuallyDropFile.drop (_ : ManuallyDropFile) : List SysCall := []

/-- `cwd` (src/fs/at.rs:37-39): returns
`ManuallyDrop::new(File::from_raw_fd(libc::AT_FDCWD))`. -/
def cwd : ManuallyDropFile :=
  ⟨⟨AT_FDCWD⟩⟩

/-- `_openat` (src/fs/at.rs:54-64): issues the native `openat` call, maps a
negative return to an OS error via `negone_err`, and on success takes
ownership of the returned descriptor as a new `File`. -/
def _openat (native : Int → Path → Nat → Nat → Int) (errno : Int)
    (dirfd : Int) (path : Path) (oflags mode : Nat) :
    Except Error File × List SysCall :=
  let ret := native dirfd path oflags mode
  (match negone_err errno ret with
   | .error e => .error e
   | .ok fd => .ok ⟨fd⟩,
   [.openat dirfd path oflags mode])

/-- `openat` (src/fs/at.rs:43-52): converts the path with `as_cstr`, then
calls `_openat`. -/
def openat (native : Int → Path → Nat → Nat → Int) (errno : Int)
    (dirfd : Int) (path : Path) (oflags mode : Nat) :
    Except Error File × List SysCall :=
  match as_cstr path with
  | .error e => (.error e, [])
  | .ok p => _openat native errno dirfd p oflags mode

/-- `libc::PATH_MAX` (its Linux value). -/
def PATH_MAX : Nat := 4096

/-- POSIX semantics of the native `readlinkat` call for a symlink whose
target is the byte sequence `t`: the kernel writes the first
`min t.length bufsize` bytes of the target into the buffer (no null
terminator) and returns that count.  Truncation is not reported. -/
def readlink_kernel (t : Path) (_dirfd : Int) (_path : Path) (bufsize : Nat) :
    Int × Path :=
  let n := min t.length bufsize
  ((n : Int), t.take n)

/-- `_readlinkat`, fixed-buffer variant (src/fs/at.rs:76-88, compiled on
platforms with a reliable `PATH_MAX`): allocates a zero-filled buffer of
`PATH_MAX + 1` bytes, issues one native call with that buffer length, maps a
negative return to an OS error via `negone_err`, and on success returns
`buffer[0..nread]`.  The oracle returns the call's return value and the bytes
it wrote at the start of the buffer. -/
def _readlinkat (native : Int → Path → Nat → Int × Path) (errno : Int)
    (dirfd : Int) (path : Path) :
    Except Error Path × List SysCall :=
  let buflen := PATH_MAX + 1
  let r := native dirfd path buflen
  (match negone_err errno r.1 with
   | .error e => .error e
   | .ok nread => .ok ((r.2 ++ List.replicate buflen 0).take nread.toNat),
   [.readlinkat dirfd path buflen])

/-- `readlinkat` (src/fs/at.rs:68-72), fixed-buffer platforms: converts the
path with `as_cstr`, then calls `_readlinkat`. -/
def readlinkat (native : Int → Path → Nat → Int × Path) (errno : Int)
    (dirfd : Int) (path : Path) :
    Except Error Path × List SysCall :=
  match as_cstr path with
  | .error e => (.error e, [])
  | .ok p => _readlinkat native errno dirfd p

/-- The loop of `_readlinkat`, WASI variant (src/fs/at.rs:95-114), run
against the POSIX kernel semantics for a symlink whose target is `t`:
call with the current capacity `cap`; if the reported length is strictly
smaller than `cap`, return the buffer contents (`set_len nread` leaves
exactly the written bytes); otherwise grow the capacity with
`Vec::reserve(1)` — modelled by any `grow` with `cap < grow cap`, which is
the guarantee `reserve` gives when the length equals the old capacity — and
retry. -/
def _readlinkat_wasi_loop (t : Path) (grow : Nat → Nat)
    (hg : ∀ c, c < grow c) (dirfd : Int) (path : Path) (cap : Nat) :
    Except Error Path × List SysCall :=
  match hm : negone_err 0 (readlink_kernel t dirfd path cap).1 with
  | .error e => (.error e, [.readlinkat dirfd path cap])
  | .ok nread =>
    if h : nread.toNat < cap then
      (.ok ((readlink_kernel t dirfd path cap).2.take nread.toNat),
       [.readlinkat dirfd path cap])
    else
      let rest := _readlinkat_wasi_loop t grow hg dirfd path (grow cap)
      (rest.1, .readlinkat dirfd path cap :: rest.2)
termination_by t.length + 1 - cap
decreasing_by
  have hgc := hg cap
  simp only [readlink_kernel, negone_err, Int.ofNat_eq_coe] at hm
  rw [if_neg (by omega)] at hm
  injection hm with hm
  omega

/-- `_readlinkat`, WASI variant (src/fs/at.rs:92-115): starts with a buffer
of capacity 256 and runs the grow-and-retry loop. -/
def _readlinkat_wasi (t : Path) (grow : Nat → Nat) (hg : ∀ c, c < grow c)
    (dirfd : Int) (path : Path) :
    Except Error Path × List SysCall :=
  _readlinkat_wasi_loop t grow hg dirfd path 256

/-- `readlinkat` (src/fs/at.rs:68-72), WASI: converts the path with
`as_cstr`, then calls the WASI `_readlinkat`. -/
def readlinkat_wasi (t : Path) (grow : Nat → Nat) (hg : ∀ c, c < grow c)
    (dirfd : Int) (path : Path) :
    Except Error Path × List SysCall :=
  match as_cstr path with
  | .error e => (.error e, [])
  | .ok p => _readlinkat_wasi t grow hg dirfd p

/-- `_mkdirat` (src/fs/at.rs:125-131): issues the native `mkdirat` call and
maps its return through `zero_ok`. -/
def _mkdirat (native : Int → Path → Nat → Int) (errno : Int)
    (dirfd : Int) (path : Path) (mode : Nat) :
    Except Error Unit × List SysCall :=
  (zero_ok errno (native dirfd path mode), [.mkdirat dirfd path mode])

/-- `mkdirat` (src/fs/at.rs:119-123): converts the path with `as_cstr`, then
calls `_mkdirat`. -/
def mkdirat (native : Int → Path → Nat → Int) (errno : Int)
    (dirfd : Int) (path : Path) (mode : Nat) :
    Except Error Unit × List SysCall :=
  match as_cstr path with
  | .error e => (.error e, [])
  | .ok p => _mkdirat native errno dirfd p mode

/-- `_linkat` (src/fs/at.rs:149-163): issues the native `linkat` call and
maps its return through `zero_ok`. -/
def _linkat (native : Int → Path → Int → Path → Nat → Int) (errno : Int)
    (old_dirfd : Int) (old_path : Path) (new_dirfd : Int) (new_path : Path)
    (flags : Nat) : Except Error Unit × List SysCall :=
  (zero_ok errno (native old_dirfd old_path new_dirfd new_path flags),
   [.linkat old_dirfd old_path new_dirfd new_path flags])

/-- `linkat` (src/fs/at.rs:135-147): converts both paths with `as_cstr`
(old first, then new), then calls `_linkat`. -/
def linkat (native : Int → Path → Int → Path → Nat → Int) (errno : Int)
    (old_dirfd : Int) (old_path : Path) (new_dirfd : Int) (new_path : Path)
    (flags : Nat) : Except Error Unit × List SysCall :=
  match as_cstr old_path with
  | .error e => (.error e, [])
  | .ok op =>
    match as_cstr new_path with
    | .error e => (.error e, [])
    | .ok np => _linkat native errno old_dirfd op new_dirfd np flags

/-- `_unlinkat` (src/fs/at.rs:173-179): issues the native `unlinkat` call
and maps its return through `zero_ok`. -/
def _unlinkat (native : Int → Path → Nat → Int) (errno : Int)
    (dirfd : Int) (path : Path) (flags : Nat) :
    Except Error Unit × List SysCall :=
  (zero_ok errno (native dirfd path flags), [.unlinkat dirfd path flags])

/-- `unlinkat` (src/fs/at.rs:167-171): converts the path with `as_cstr`,
then calls `_unlinkat`. -/
def unlinkat (native : Int → Path → Nat → Int) (errno : Int)
    (dirfd : Int) (path : Path) (flags : Nat) :
    Except Error Unit × List SysCall :=
  match as_cstr path with
  | .error e => (.error e, [])
  | .ok p => _unlinkat native errno dirfd p flags

/-- `_renameat` (src/fs/at.rs:196-208): issues the native `renameat` call
and maps its return through `zero_ok`. -/
def _renameat (native : Int → Path → Int → Path → Int) (errno : Int)
    (old_dirfd : Int) (old_path : Path) (new_dirfd : Int) (new_path : Path) :
    Except Error Unit × List SysCall :=
  (zero_ok errno (native old_dirfd old_path new_dirfd new_path),
   [.renameat old_dirfd old_path new_dirfd new_path])

/-- `renameat` (src/fs/at.rs:183-194): converts both paths with `as_cstr`
(old first, then new), then calls `_renameat`. -/
def renameat (native : Int → Path → Int → Path → Int) (errno : Int)
    (old_dirfd : Int) (old_path : Path) (new_dirfd : Int) (new_path : Path) :
    Except Error Unit × List SysCall :=
  match as_cstr old_path with
  | .error e => (.error e, [])
  | .ok op =>
    match as_cstr new_path with
    | .error e => (.error e, [])
    | .ok np => _renameat native errno old_dirfd op new_dirfd np

/-- `_symlinkat` (src/fs/at.rs:223-229): issues the native `symlinkat` call
and maps its return through `zero_ok`. -/
def _symlinkat (native : Path → Int → Path → Int) (errno : Int)
    (old_path : Path) (new_dirfd : Int) (new_path : Path) :
    Except Error Unit × List SysCall :=
  (zero_ok errno (native old_path new_dirfd new_path),
   [.symlinkat old_path new_dirfd new_path])

/-- `symlinkat` (src/fs/at.rs:212-221): converts both paths with `as_cstr`
(old first, then new), then calls `_symlinkat`. -/
def symlinkat (native : Path → Int → Path → Int) (errno : Int)
    (old_path : Path) (new_dirfd : Int) (new_path : Path) :
    Except Error Unit × List SysCall :=
  match as_cstr old_path with
  | .error e => (.error e, [])
  | .ok op =>
    match as_cstr new_path with
    | .error e => (.error e, [])
    | .ok np => _symlinkat native errno op new_dirfd np

/-- The `LibcStat` metadata record; its platform-specific fields are kept
opaque as a list of raw integer field values. -/
structure LibcStat where
  raw : List Int
deriving DecidableEq, Repr

/-- `MaybeUninit<LibcStat>`: a record slot that is either still
uninitialized or holds a fully written record. -/
inductive MaybeUninitStat where
  | uninit : MaybeUninitStat
  | init (s : LibcStat) : MaybeUninitStat
deriving DecidableEq, Repr

/-- `MaybeUninit::assume_init`: reading an initialized slot yields its
record; reading an uninitialized slot is undefined behavior, modelled as
`none`. -/
def assume_init : MaybeUninitStat → Option LibcStat
  | .uninit => none
  | .init s => some s

/-- `_statat` (src/fs/at.rs:243-252): allocates an uninitialized
`MaybeUninit::<LibcStat>::uninit()` record, issues the native `fstatat` call
(which receives the record slot and returns its return code plus the slot's
new state), maps the return through `zero_ok`, and only on success reads the
slot with `assume_init`.  On failure the slot is discarded unread. -/
def _statat (native : Int → Path → MaybeUninitStat → Nat → Int × MaybeUninitStat)
    (errno : Int) (dirfd : Int) (path : Path) (flags : Nat) :
    Except Error (Option LibcStat) × List SysCall :=
  let stat := MaybeUninitStat.uninit
  let r := native dirfd path stat flags
  (match zero_ok errno r.1 with
   | .error e => .error e
   | .ok _ => .ok (assume_init r.2),
   [.fstatat dirfd path flags])

/-- `statat` (src/fs/at.rs:233-241): converts the path with `as_cstr`, then
calls `_statat`. -/
def statat (native : Int → Path → MaybeUninitStat → Nat → Int × MaybeUninitStat)
    (errno : Int) (dirfd : Int) (path : Path) (flags : Nat) :
    Except Error (Option LibcStat) × List SysCall :=
  match as_cstr path with
  | .error e => (.error e, [])
  | .ok p => _statat native errno dirfd p flags

/-- `_accessat`, non-Emscripten variant (src/fs/at.rs:268-275): issues the
native `faccessat` call and maps its return through `zero_ok`. -/
def _accessat (native : Int → Path → Nat → Nat → Int) (errno : Int)
    (dirfd : Int) (path : Path) (access flags : Nat) :
    Except Error Unit × List SysCall :=
  (zero_ok errno (native dirfd path access flags),
   [.faccessat dirfd path access flags])

/-- `accessat` (src/fs/at.rs:256-265), non-Emscripten platforms: converts
the path with `as_cstr`, then calls `_accessat`. -/
def accessat (native : Int → Path → Nat → Nat → Int) (errno : Int)
    (dirfd : Int) (path : Path) (access flags : Nat) :
    Except Error Unit × List SysCall :=
  match as_cstr path with
  | .error e => (.error e, [])
  | .ok p => _accessat native errno dirfd p access flags

/-- `_accessat`, Emscripten variant (src/fs/at.rs:280-287): a stub that
ignores all of its arguments, issues no native call, and returns `Ok(())`
unconditionally. -/
def _accessat_emscripten (_dirfd : Int) (_path : Path) (_access _flags : Nat) :
    Except Error Unit × List SysCall :=
  (.ok (), [])

/-- `accessat` (src/fs/at.rs:256-265), Emscripten: converts the path with
`as_cstr`, then calls the stub `_accessat`. -/
def accessat_emscripten (dirfd : Int) (path : Path) (access flags : Nat) :
    Except Error Unit × List SysCall :=
  match as_cstr path with
  | .error e => (.error e, [])
  | .ok p => _accessat_emscripten dirfd p access flags

/-- A `[libc::timespec; 2]` pair of (seconds, nanoseconds) timestamps. -/
abbrev Timespec2 := (Int × Int) × (Int × Int)

/-- `_utimensat` (src/fs/at.rs:301-313): issues the native `utimensat` call
and maps its return through `zero_ok`. -/
def _utimensat (native : Int → Path → Timespec2 → Nat → Int) (errno : Int)
    (dirfd : Int) (path : Path) (times : Timespec2) (flags : Nat) :
    Except Error Unit × List SysCall :=
  (zero_ok errno (native dirfd path times flags),
   [.utimensat dirfd path times flags])

/-- `utimensat` (src/fs/at.rs:290-299): converts the path with `as_cstr`,
then calls `_utimensat`. -/
def utimensat (native : Int → Path → Timespec2 → Nat → Int) (errno : Int)
    (dirfd : Int) (path : Path) (times : Timespec2) (flags : Nat) :
    Except Error Unit × List SysCall :=
  match as_cstr path with
  | .error e => (.error e, [])
  | .ok p => _utimensat native errno dirfd p times flags

/-- `_chmodat`, non-Linux/non-WASI variant (src/fs/at.rs:332-339): issues
the library `fchmodat` entry point with the flags argument fixed to the
literal `0`, and maps its return through `zero_ok`. -/
def _chmodat (native : Int → Path → Nat → Nat → Int) (errno : Int)
    (dirfd : Int) (path : Path) (mode : Nat) :
    Except Error Unit × List SysCall :=
  (zero_ok errno (native dirfd path mode 0),
   [.fchmodat dirfd path mode 0])

/-- `_chmodat`, Linux variant (src/fs/at.rs:342-350): issues the raw
numbered `SYS_fchmodat` system call, which takes no flags parameter at all,
and maps its return through `zero_ok`. -/
def _chmodat_linux (native : Int → Path → Nat → Int) (errno : Int)
    (dirfd : Int) (path : Path) (mode : Nat) :
    Except Error Unit × List SysCall :=
  (zero_ok errno (native dirfd path mode),
   [.sys_fchmodat dirfd path mode])

/-- `chmodat` (src/fs/at.rs:325-329), non-Linux platforms: its signature has
no flags argument; converts the path with `as_cstr`, then calls the
library-entry-point `_chmodat`. -/
def chmodat (native : Int → Path → Nat → Nat → Int) (errno : Int)
    (dirfd : Int) (path : Path) (mode : Nat) :
    Except Error Unit × List SysCall :=
  match as_cstr path with
  | .error e => (.error e, [])
  | .ok p => _chmodat native errno dirfd p mode

/-- `chmodat` (src/fs/at.rs:325-329), Linux: its signature has no flags
argument; converts the path with `as_cstr`, then calls the raw-syscall
`_chmodat`. -/
def chmodat_linux (native : Int → Path → Nat → Int) (errno : Int)
    (dirfd : Int) (path : Path) (mode : Nat) :
    Except Error Unit × List SysCall :=
  match as_cstr path with
  | .error e => (.error e, [])
  | .ok p => _chmodat_linux native errno dirfd p mode

/-- `_fclonefileat` (src/fs/at.rs:368-384): issues the (weakly bound) native
`fclonefileat` call and maps its return through `zero_ok`. -/
def _fclonefileat (native : Int → Int → Path → Nat → Int) (errno : Int)
    (srcfd dst_dirfd : Int) (dst : Path) (flags : Nat) :
    Except Error Unit × List SysCall :=
  (zero_ok errno (native srcfd dst_dirfd dst flags),
   [.fclonefileat srcfd dst_dirfd dst flags])

/-- `fclonefileat` (src/fs/at.rs:355-365): converts the destination path
with `as_cstr`, then calls `_fclonefileat`. -/
def fclonefileat (native : Int → Int → Path → Nat → Int) (errno : Int)
    (srcfd dst_dirfd : Int) (dst : Path) (flags : Nat) :
    Except Error Unit × List SysCall :=
  match as_cstr dst with
  | .error e => (.error e, [])
  | .ok p => _fclonefileat native errno srcfd dst_dirfd p flags

/-! Concrete native oracles, used in closed instantiations of the theorems
below. -/

/-- Oracle for `openat`: native call returns descriptor 3. -/
def oracleOpen3 : Int → Path → Nat → Nat → Int := fun _ _ _ _ => 3

/-- Oracle for `openat`: native call fails with return value -1. -/
def oracleOpenNeg : Int → Path → Nat → Nat → Int := fun _ _ _ _ => -1

/-- Oracle for `mkdirat`, `unlinkat` and the raw-syscall `_chmodat`:
native call returns 0. -/
def oracleRet3Args0 : Int → Path → Nat → Int := fun _ _ _ => 0

/-- Oracle for `linkat`: native call returns 0. -/
def oracleLink0 : Int → Path → Int → Path → Nat → Int := fun _ _ _ _ _ => 0

/-- Oracle for `renameat`: native call returns 0. -/
def oracleRename0 : Int → Path → Int → Path → Int := fun _ _ _ _ => 0

/-- Oracle for `symlinkat`: native call returns 0. -/
def oracleSymlink0 : Path → Int → Path → Int := fun _ _ _ => 0

/-- Oracle for `fstatat`: native call succeeds and fully initializes the
record slot. -/
def oracleStatOk : Int → Path → MaybeUninitStat → Nat → Int × MaybeUninitStat :=
  fun _ _ _ _ => (0, .init ⟨[7]⟩)

/-- Oracle for `fstatat`: native call fails with -1 and leaves the record
slot as it was. -/
def oracleStatFail : Int → Path → MaybeUninitStat → Nat → Int × MaybeUninitStat :=
  fun _ _ st _ => (-1, st)

/-- Oracle for `faccessat`, the library `fchmodat` and `openat`-shaped
calls: native call returns 0. -/
def oracleRet4Args0 : Int → Path → Nat → Nat → Int := fun _ _ _ _ => 0

/-- Oracle for `utimensat`: native call returns 0. -/
def oracleUtimens0 : Int → Path → Timespec2 → Nat → Int := fun _ _ _ _ => 0

/-- Oracle for `fclonefileat`: native call returns 0. -/
def oracleClone0 : Int → Int → Path → Nat → Int := fun _ _ _ _ => 0

/-- C7: `cwd` always returns a handle whose raw value equals the reserved
`AT_FDCWD` sentinel, wrapped in the non-owning `ManuallyDrop` wrapper, so an
ordinary drop of the returned value issues no close of the sentinel. -/
theorem cwd_is_nonowning_atfdcwd_sentinel :
    cwd.value.fd = AT_FDCWD ∧ ManuallyDropFile.drop cwd = [] :=
  ⟨rfl, rfl⟩

/-- C4: the Emscripten `_accessat` variant is a stub returning unconditional
success for every directory handle, path, access mode and flags combination,
issuing no native call. -/
theorem accessat_emscripten_stub_unconditional_success
    (dirfd : Int) (path : Path) (access flags : Nat) :
    _accessat_emscripten dirfd path access flags = (.ok (), []) :=
  rfl

/-- C9: even on Emscripten, the public `accessat` wrapper performs path
conversion before reaching the stub: a path with an embedded null byte
yields the conversion error (not success), and the stub's unconditional
success is observed exactly for convertible paths. -/
theorem accessat_emscripten_conversion_precedes_stub
    (dirfd : Int) (path : Path) (access flags : Nat) :
    (0 ∈ path →
       accessat_emscripten dirfd path access flags = (.error .invalidInput, [])) ∧
    (0 ∉ path →
       accessat_emscripten dirfd path access flags = (.ok (), [])) := by
  constructor
  · intro h
    simp [accessat_emscripten, as_cstr, h]
  · intro h
    simp [accessat_emscripten, as_cstr, h, _accessat_emscripten]

/-- Closed instantiation of `accessat_emscripten_conversion_precedes_stub`
at the embedded-null path `[65, 0]` and the plain path `[65]`. -/
theorem accessat_emscripten_conversion_precedes_stub_witness :
    accessat_emscripten 5 [65, 0] 1 2 = (.error .invalidInput, []) ∧
    accessat_emscripten 5 [65] 1 2 = (.ok (), []) :=
  ⟨(accessat_emscripten_conversion_precedes_stub 5 [65, 0] 1 2).1 (by decide),
   (accessat_emscripten_conversion_precedes_stub 5 [65] 1 2).2 (by decide)⟩

/-- C8: `_openat` issues exactly one native call (no retry, also not on
interrupted-call errors); if the native return value is nonnegative the
result is a newly owned `File` holding exactly that descriptor, and if it is
negative the result is an OS error carrying the native error code
unchanged. -/
theorem openat_owns_fd_or_propagates_os_error
    (native : Int → Path → Nat → Nat → Int) (errno : Int)
    (dirfd : Int) (path : Path) (oflags mode : Nat) :
    (_openat native errno dirfd path oflags mode).2
      = [.openat dirfd path oflags mode] ∧
    (0 ≤ native dirfd path oflags mode →
       (_openat native errno dirfd path oflags mode).1
         = .ok ⟨native dirfd path oflags mode⟩) ∧
    (native dirfd path oflags mode < 0 →
       (_openat native errno dirfd path oflags mode).1
         = .error (.osError errno)) := by
  refine ⟨rfl, ?_, ?_⟩
  · intro h
    simp [_openat, negone_err, not_lt.mpr h]
  · intro h
    simp [_openat, negone_err, h]

/-- Closed instantiation of `openat_owns_fd_or_propagates_os_error` at a
succeeding oracle (descriptor 3) and a failing oracle (return -1,
errno 7). -/
theorem openat_owns_fd_or_propagates_os_error_witness :
    (_openat oracleOpen3 7 5 [65] 1 2).1 = .ok ⟨3⟩ ∧
    (_openat oracleOpenNeg 7 5 [65] 1 2).1 = .error (.osError 7) :=
  ⟨(openat_owns_fd_or_propagates_os_error oracleOpen3 7 5 [65] 1 2).2.1 (by decide),
   (openat_owns_fd_or_propagates_os_error oracleOpenNeg 7 5 [65] 1 2).2.2 (by decide)⟩

/-- C1: for every public wrapper (`openat`, `readlinkat` in both platform
variants, `mkdirat`, `linkat`, `unlinkat`, `renameat`, `symlinkat`,
`statat`, `accessat` in both platform variants, `utimensat`, `chmodat` in
both platform variants, `fclonefileat`) and every path argument containing
an embedded null byte, the wrapper returns the conversion error and issues
no native call (empty syscall trace), regardless of which position the
failing path occupies for the two-path wrappers. -/
theorem wrappers_reject_embedded_null_before_any_native_call
    (p : Path) (hp : 0 ∈ p) :
    (∀ native errno dirfd oflags mode,
       openat native errno dirfd p oflags mode = (.error .invalidInput, [])) ∧
    (∀ native errno dirfd,
       readlinkat native errno dirfd p = (.error .invalidInput, [])) ∧
    (∀ t grow hg dirfd,
       readlinkat_wasi t grow hg dirfd p = (.error .invalidInput, [])) ∧
    (∀ native errno dirfd mode,
       mkdirat native errno dirfd p mode = (.error .invalidInput, [])) ∧
    (∀ native errno old_dirfd new_dirfd (q : Path) flags,
       linkat native errno old_dirfd p new_dirfd q flags
         = (.error .invalidInput, []) ∧
       linkat native errno old_dirfd q new_dirfd p flags
         = (.error .invalidInput, [])) ∧
    (∀ native errno dirfd flags,
       unlinkat native errno dirfd p flags = (.error .invalidInput, [])) ∧
    (∀ native errno old_dirfd new_dirfd (q : Path),
       renameat native errno old_dirfd p new_dirfd q
         = (.error .invalidInput, []) ∧
       renameat native errno old_dirfd q new_dirfd p
         = (.error .invalidInput, [])) ∧
    (∀ native errno new_dirfd (q : Path),
       symlinkat native errno p new_dirfd q = (.error .invalidInput, []) ∧
       symlinkat native errno q new_dirfd p = (.error .invalidInput, [])) ∧
    (∀ native errno dirfd flags,
       statat native errno dirfd p flags = (.error .invalidInput, [])) ∧
    (∀ native errno dirfd access flags,
       accessat native errno dirfd p access flags = (.error .invalidInput, [])) ∧
    (∀ dirfd access flags,
       accessat_emscripten dirfd p access flags = (.error .invalidInput, [])) ∧
    (∀ native errno dirfd times flags,
       utimensat native errno dirfd p times flags = (.error .invalidInput, [])) ∧
    (∀ native errno dirfd mode,
       chmodat native errno dirfd p mode = (.error .invalidInput, [])) ∧
    (∀ native errno dirfd mode,
       chmodat_linux native errno dirfd p mode = (.error .invalidInput, [])) ∧
    (∀ native errno srcfd dst_dirfd flags,
       fclonefileat native errno srcfd dst_dirfd p flags
         = (.error .invalidInput, [])) := by
  refine ⟨?_, ?_, ?_, ?_, ?_, ?_, ?_, ?_, ?_, ?_, ?_, ?_, ?_, ?_, ?_⟩
  · intro native errno dirfd oflags mode
    simp [openat, as_cstr, hp]
  · intro native errno dirfd
    simp [readlinkat, as_cstr, hp]
  · intro t grow hg dirfd
    simp [readlinkat_wasi, as_cstr, hp]
  · intro native errno dirfd mode
    simp [mkdirat, as_cstr, hp]
  · intro native errno old_dirfd new_dirfd q flags
    constructor
    · simp [linkat, as_cstr, hp]
    · by_cases hq : 0 ∈ q <;> simp [linkat, as_cstr, hp, hq]
  · intro native errno dirfd flags
    simp [unlinkat, as_cstr, hp]
  · intro native errno old_dirfd new_dirfd q
    constructor
    · simp [renameat, as_cstr, hp]
    · by_cases hq : 0 ∈ q <;> simp [renameat, as_cstr, hp, hq]
  · intro native errno new_dirfd q
    constructor
    · simp [symlinkat, as_cstr, hp]
    · by_cases hq : 0 ∈ q <;> simp [symlinkat, as_cstr, hp, hq]
  · intro native errno dirfd flags
    simp [statat, as_cstr, hp]
  · intro native errno dirfd access flags
    simp [accessat, as_cstr, hp]
  · intro dirfd access flags
    simp [accessat_emscripten, as_cstr, hp]
  · intro native errno dirfd times flags
    simp [utimensat, as_cstr, hp]
  · intro native errno dirfd mode
    simp [chmodat, as_cstr, hp]
  · intro native errno dirfd mode
    simp [chmodat_linux, as_cstr, hp]
  · intro native errno srcfd dst_dirfd flags
    simp [fclonefileat, as_cstr, hp]

/-- Closed instantiation of
`wrappers_reject_embedded_null_before_any_native_call` at the embedded-null
path `[0]`, with every wrapper applied to a concrete oracle and concrete
arguments. -/
theorem wrappers_reject_embedded_null_before_any_native_call_witness :
    openat oracleOpen3 7 5 [0] 1 2 = (.error .invalidInput, []) ∧
    readlinkat (readlink_kernel [65]) 7 5 [0] = (.error .invalidInput, []) ∧
    readlinkat_wasi [65] Nat.succ Nat.lt_succ_self 5 [0]
      = (.error .invalidInput, []) ∧
    mkdirat oracleRet3Args0 7 5 [0] 6 = (.error .invalidInput, []) ∧
    linkat oracleLink0 7 5 [0] 6 [65] 0 = (.error .invalidInput, []) ∧
    linkat oracleLink0 7 5 [65] 6 [0] 0 = (.error .invalidInput, []) ∧
    unlinkat oracleRet3Args0 7 5 [0] 0 = (.error .invalidInput, []) ∧
    renameat oracleRename0 7 5 [0] 6 [65] = (.error .invalidInput, []) ∧
    renameat oracleRename0 7 5 [65] 6 [0] = (.error .invalidInput, []) ∧
    symlinkat oracleSymlink0 7 [0] 6 [65] = (.error .invalidInput, []) ∧
    symlinkat oracleSymlink0 7 [65] 6 [0] = (.error .invalidInput, []) ∧
    statat oracleStatOk 7 5 [0] 0 = (.error .invalidInput, []) ∧
    accessat oracleRet4Args0 7 5 [0] 1 0 = (.error .invalidInput, []) ∧
    accessat_emscripten 5 [0] 1 0 = (.error .invalidInput, []) ∧
    utimensat oracleUtimens0 7 5 [0] ((1, 2), (3, 4)) 0
      = (.error .invalidInput, []) ∧
    chmodat oracleRet4Args0 7 5 [0] 6 = (.error .invalidInput, []) ∧
    chmodat_linux oracleRet3Args0 7 5 [0] 6 = (.error .invalidInput, []) ∧
    fclonefileat oracleClone0 7 5 6 [0] 0 = (.error .invalidInput, []) := by
  have h := wrappers_reject_embedded_null_before_any_native_call [0] (by decide)
  exact ⟨h.1 oracleOpen3 7 5 1 2,
    h.2.1 (readlink_kernel [65]) 7 5,
    h.2.2.1 [65] Nat.succ Nat.lt_succ_self 5,
    h.2.2.2.1 oracleRet3Args0 7 5 6,
    (h.2.2.2.2.1 oracleLink0 7 5 6 [65] 0).1,
    (h.2.2.2.2.1 oracleLink0 7 5 6 [65] 0).2,
    h.2.2.2.2.2.1 oracleRet3Args0 7 5 0,
    (h.2.2.2.2.2.2.1 oracleRename0 7 5 6 [65]).1,
    (h.2.2.2.2.2.2.1 oracleRename0 7 5 6 [65]).2,
    (h.2.2.2.2.2.2.2.1 oracleSymlink0 7 6 [65]).1,
    (h.2.2.2.2.2.2.2.1 oracleSymlink0 7 6 [65]).2,
    h.2.2.2.2.2.2.2.2.1 oracleStatOk 7 5 0,
    h.2.2.2.2.2.2.2.2.2.1 oracleRet4Args0 7 5 1 0,
    h.2.2.2.2.2.2.2.2.2.2.1 5 1 0,
    h.2.2.2.2.2.2.2.2.2.2.2.1 oracleUtimens0 7 5 ((1, 2), (3, 4)) 0,
    h.2.2.2.2.2.2.2.2.2.2.2.2.1 oracleRet4Args0 7 5 6,
    h.2.2.2.2.2.2.2.2.2.2.2.2.2.1 oracleRet3Args0 7 5 6,
    h.2.2.2.2.2.2.2.2.2.2.2.2.2.2 oracleClone0 7 5 6 0⟩

/-- Evaluation of the fixed-buffer `_readlinkat` against a native call that
succeeds reporting `n` bytes and writing exactly those `n` bytes. -/
theorem readlinkat_fixed_eval
    (native : Int → Path → Nat → Int × Path) (errno : Int)
    (dirfd : Int) (path : Path) (n : Nat) (w : Path)
    (hn : native dirfd path (PATH_MAX + 1) = ((n : Int), w))
    (hw : w.length = n) :
    _readlinkat native errno dirfd path
      = (.ok w, [.readlinkat dirfd path (PATH_MAX + 1)]) := by
  have hneg : ¬ ((n : Int) < 0) := by omega
  simp only [_readlinkat, hn, negone_err, if_neg hneg]
  have htn : ((n : Int)).toNat = n := by omega
  rw [htn, List.take_append_of_le_length (by omega), ← hw, List.take_length]

/-- C6: on fixed-maximum-path platforms, `_readlinkat` passes a buffer of
exactly `PATH_MAX + 1` bytes to a single native call, and when the call
succeeds reporting `n` bytes written, the result is exactly those `n` bytes
with no null terminator appended. -/
theorem readlinkat_fixed_single_call_exact_bytes
    (native : Int → Path → Nat → Int × Path) (errno : Int)
    (dirfd : Int) (path : Path) (n : Nat) (w : Path)
    (hn : native dirfd path (PATH_MAX + 1) = ((n : Int), w))
    (hw : w.length = n) :
    _readlinkat native errno dirfd path
      = (.ok w, [.readlinkat dirfd path (PATH_MAX + 1)]) ∧
    w.length = n :=
  ⟨readlinkat_fixed_eval native errno dirfd path n w hn hw, hw⟩

/-- Closed instantiation of `readlinkat_fixed_single_call_exact_bytes`:
the POSIX kernel oracle for a three-byte symlink target reports 3 bytes, and
the wrapper returns exactly those 3 bytes after one call. -/
theorem readlinkat_fixed_single_call_exact_bytes_witness :
    _readlinkat (readlink_kernel [1, 2, 3]) 7 5 [65]
      = (.ok [1, 2, 3], [.readlinkat 5 [65] (PATH_MAX + 1)]) ∧
    ([1, 2, 3] : Path).length = 3 :=
  readlinkat_fixed_single_call_exact_bytes (readlink_kernel [1, 2, 3]) 7 5
    [65] 3 [1, 2, 3] (by decide) (by decide)

/-- C10: the fixed-buffer `_readlinkat` never detects truncation: against
the POSIX kernel semantics for any symlink target longer than the
`PATH_MAX + 1` buffer, the call reports a length equal to the full buffer
size and the wrapper returns those bytes as a successful result after a
single call — a strictly shorter prefix of the true target, silently. -/
theorem readlinkat_fixed_silent_truncation
    (t : Path) (errno : Int) (dirfd : Int) (path : Path)
    (ht : PATH_MAX + 1 < t.length) :
    (readlink_kernel t dirfd path (PATH_MAX + 1)).1
      = ((PATH_MAX + 1 : Nat) : Int) ∧
    _readlinkat (readlink_kernel t) errno dirfd path
      = (.ok (t.take (PATH_MAX + 1)), [.readlinkat dirfd path (PATH_MAX + 1)]) ∧
    t.take (PATH_MAX + 1) <+: t ∧
    t.take (PATH_MAX + 1) ≠ t := by
  have hmin : min t.length (PATH_MAX + 1) = PATH_MAX + 1 := by omega
  refine ⟨?_, ?_, ?_, ?_⟩
  · simp [readlink_kernel, hmin]
  · exact readlinkat_fixed_eval (readlink_kernel t)
      errno dirfd path (PATH_MAX + 1) (t.take (PATH_MAX + 1))
      (by simp [readlink_kernel, hmin]) (by simp; omega)
  · exact ⟨t.drop (PATH_MAX + 1), List.take_append_drop _ t⟩
  · intro heq
    have : (t.take (PATH_MAX + 1)).length = t.length := by rw [heq]
    simp at this
    omega

/-- Closed instantiation of `readlinkat_fixed_silent_truncation` at a
4098-byte target: the 4097-byte buffer is reported full and a truncated
prefix is returned as success. -/
theorem readlinkat_fixed_silent_truncation_witness :
    (readlink_kernel (List.replicate 4098 65) 5 [66] (PATH_MAX + 1)).1
      = ((PATH_MAX + 1 : Nat) : Int) ∧
    _readlinkat (readlink_kernel (List.replicate 4098 65)) 7 5 [66]
      = (.ok ((List.replicate 4098 65).take (PATH_MAX + 1)),
         [.readlinkat 5 [66] (PATH_MAX + 1)]) ∧
    (List.replicate 4098 65).take (PATH_MAX + 1) <+: List.replicate 4098 65 ∧
    (List.replicate 4098 65).take (PATH_MAX + 1) ≠ List.replicate 4098 65 :=
  readlinkat_fixed_silent_truncation (List.replicate 4098 65) 7 5 [66]
    (by rw [List.length_replicate]; decide)

/-- C3: `_statat` starts from an uninitialized record slot, issues exactly
one native call, and: whenever the native call fails (nonzero return), the
result is the OS error carrying `errno` and no record — initialized or not —
appears in the output; whenever the call succeeds and the platform contract
holds (a successful `fstatat` fully writes the record), the result is the
fully populated record, never an uninitialized read (`none`). -/
theorem statat_never_exposes_uninitialized_record
    (native : Int → Path → MaybeUninitStat → Nat → Int × MaybeUninitStat)
    (errno : Int) (dirfd : Int) (path : Path) (flags : Nat) :
    (_statat native errno dirfd path flags).2 = [.fstatat dirfd path flags] ∧
    ((native dirfd path .uninit flags).1 ≠ 0 →
       (_statat native errno dirfd path flags).1 = .error (.osError errno)) ∧
    ((∀ st, (native dirfd path st flags).1 = 0 →
        ∃ s, (native dirfd path st flags).2 = .init s) →
     (native dirfd path .uninit flags).1 = 0 →
       ∃ s, (_statat native errno dirfd path flags).1 = .ok (some s)) := by
  refine ⟨rfl, ?_, ?_⟩
  · intro h
    simp [_statat, zero_ok, h]
  · intro hcontract h
    obtain ⟨s, hs⟩ := hcontract .uninit h
    refine ⟨s, ?_⟩
    simp [_statat, zero_ok, h, hs, assume_init]

/-- Closed instantiation of `statat_never_exposes_uninitialized_record`:
a failing oracle yields the OS error with errno 9 and no record, a
succeeding write-through oracle yields a populated record. -/
theorem statat_never_exposes_uninitialized_record_witness :
    (_statat oracleStatFail 9 5 [65] 2).1 = .error (.osError 9) ∧
    ∃ s, (_statat oracleStatOk 9 5 [65] 2).1 = .ok (some s) :=
  ⟨(statat_never_exposes_uninitialized_record oracleStatFail 9 5 [65] 2).2.1
     (by decide),
   (statat_never_exposes_uninitialized_record oracleStatOk 9 5 [65] 2).2.2
     (fun _ _ => ⟨⟨[7]⟩, rfl⟩) (by decide)⟩

/-- C5: `chmodat` exposes no flags argument in either platform variant; the
non-Linux variant forwards the literal flags value 0 to every library
`fchmodat` call it issues, the Linux variant issues only raw `SYS_fchmodat`
calls which carry no flags parameter at all, and whenever the library entry
point at flags 0 agrees with the raw syscall, the two variants produce the
same externally observable result. -/
theorem chmodat_never_supports_nofollow_flag
    (nativeL : Int → Path → Nat → Int)
    (nativeO : Int → Path → Nat → Nat → Int)
    (errno : Int) (dirfd : Int) (path : Path) (mode : Nat) :
    (∀ c ∈ (chmodat nativeO errno dirfd path mode).2,
       ∃ d p m, c = SysCall.fchmodat d p m 0) ∧
    (∀ c ∈ (chmodat_linux nativeL errno dirfd path mode).2,
       ∃ d p m, c = SysCall.sys_fchmodat d p m) ∧
    ((∀ d p m, nativeO d p m 0 = nativeL d p m) →
       (chmodat nativeO errno dirfd path mode).1
         = (chmodat_linux nativeL errno dirfd path mode).1) := by
  refine ⟨?_, ?_, ?_⟩
  · intro c hc
    by_cases hp : 0 ∈ path
    · simp [chmodat, as_cstr, hp] at hc
    · simp [chmodat, as_cstr, hp, _chmodat] at hc
      exact ⟨dirfd, path, mode, hc⟩
  · intro c hc
    by_cases hp : 0 ∈ path
    · simp [chmodat_linux, as_cstr, hp] at hc
    · simp [chmodat_linux, as_cstr, hp, _chmodat_linux] at hc
      exact ⟨dirfd, path, mode, hc⟩
  · intro hagree
    by_cases hp : 0 ∈ path
    · simp [chmodat, chmodat_linux, as_cstr, hp]
    · simp [chmodat, chmodat_linux, as_cstr, hp, _chmodat, _chmodat_linux,
        hagree dirfd path mode]

/-- Closed instantiation of `chmodat_never_supports_nofollow_flag`: with a
library oracle and a raw-syscall oracle that agree (both return 0), the two
variants return the same result on a concrete input. -/
theorem chmodat_never_supports_nofollow_flag_witness :
    (chmodat oracleRet4Args0 7 5 [65] 6).1
      = (chmodat_linux oracleRet3Args0 7 5 [65] 6).1 :=
  (chmodat_never_supports_nofollow_flag oracleRet3Args0 oracleRet4Args0
    7 5 [65] 6).2.2 (fun _ _ _ => rfl)

/-- One unfolding step of the WASI `readlinkat` loop: if the kernel reports
fewer bytes than the capacity the loop returns them, otherwise it records
the call and recurses at the grown capacity. -/
theorem wasi_loop_step (t : Path) (grow : Nat → Nat) (hg : ∀ c, c < grow c)
    (dirfd : Int) (path : Path) (cap : Nat) :
    _readlinkat_wasi_loop t grow hg dirfd path cap =
      if t.length < cap then
        (.ok (t.take (min t.length cap)), [.readlinkat dirfd path cap])
      else
        ((_readlinkat_wasi_loop t grow hg dirfd path (grow cap)).1,
         .readlinkat dirfd path cap ::
           (_readlinkat_wasi_loop t grow hg dirfd path (grow cap)).2) := by
  have hk : (readlink_kernel t dirfd path cap).1
      = ((min t.length cap : Nat) : Int) := rfl
  rw [_readlinkat_wasi_loop]
  split
  next e heq =>
    exfalso
    rw [hk] at heq
    unfold negone_err at heq
    rw [if_neg (by omega)] at heq
    exact Except.noConfusion heq
  next nread heq =>
    rw [hk] at heq
    unfold negone_err at heq
    rw [if_neg (by omega)] at heq
    injection heq with heq
    have htn : nread.toNat = min t.length cap := by omega
    by_cases hlt : t.length < cap
    · rw [dif_pos (show nread.toNat < cap by omega), if_pos hlt, htn]
      simp [readlink_kernel, List.take_take]
    · rw [dif_neg (show ¬ nread.toNat < cap by omega), if_neg hlt]

/-- The WASI `readlinkat` loop always terminates with the full symlink
target, from any starting capacity. -/
theorem wasi_loop_result (t : Path) (grow : Nat → Nat) (hg : ∀ c, c < grow c)
    (dirfd : Int) (path : Path) :
    ∀ n cap, t.length + 1 - cap ≤ n →
      (_readlinkat_wasi_loop t grow hg dirfd path cap).1 = .ok t := by
  intro n
  induction n with
  | zero =>
    intro cap hcap
    have hlt : t.length < cap := by omega
    rw [wasi_loop_step]
    simp [hlt, Nat.min_eq_left (Nat.le_of_lt hlt)]
  | succ n ih =>
    intro cap hcap
    by_cases hlt : t.length < cap
    · rw [wasi_loop_step]
      simp [hlt, Nat.min_eq_left (Nat.le_of_lt hlt)]
    · rw [wasi_loop_step, if_neg hlt]
      exact ih (grow cap) (by have := hg cap; omega)

/-- C2: on platforms without a reliable maximum path length, `_readlinkat`
starts the loop at capacity 256; whenever the kernel reports a length equal
to the full capacity the loop issues the call, grows the capacity strictly
(by at least one byte) and retries; as soon as a reported length strictly
below the capacity is observed it returns exactly the bytes the final call
reported; and for every finite symlink target the loop terminates with the
whole target. -/
theorem readlinkat_wasi_grows_and_terminates
    (t : Path) (grow : Nat → Nat) (hg : ∀ c, c < grow c)
    (dirfd : Int) (path : Path) :
    _readlinkat_wasi t grow hg dirfd path
      = _readlinkat_wasi_loop t grow hg dirfd path 256 ∧
    (∀ cap, (readlink_kernel t dirfd path cap).1 = ((cap : Nat) : Int) →
       cap < grow cap ∧
       _readlinkat_wasi_loop t grow hg dirfd path cap
         = ((_readlinkat_wasi_loop t grow hg dirfd path (grow cap)).1,
            .readlinkat dirfd path cap ::
              (_readlinkat_wasi_loop t grow hg dirfd path (grow cap)).2)) ∧
    (∀ cap, (readlink_kernel t dirfd path cap).1.toNat < cap →
       _readlinkat_wasi_loop t grow hg dirfd path cap
         = (.ok (readlink_kernel t dirfd path cap).2,
            [.readlinkat dirfd path cap])) ∧
    (_readlinkat_wasi t grow hg dirfd path).1 = .ok t := by
  refine ⟨rfl, ?_, ?_, ?_⟩
  · intro cap hcap
    rw [show (readlink_kernel t dirfd path cap).1
        = ((min t.length cap : Nat) : Int) from rfl] at hcap
    have hle : ¬ t.length < cap := by omega
    exact ⟨hg cap, by rw [wasi_loop_step, if_neg hle]⟩
  · intro cap hcap
    rw [show (readlink_kernel t dirfd path cap).1
        = ((min t.length cap : Nat) : Int) from rfl] at hcap
    have hlt : t.length < cap := by omega
    rw [wasi_loop_step, if_pos hlt]
    simp [readlink_kernel]
  · exact wasi_loop_result t grow hg dirfd path (t.length + 1) 256 (by omega)

/-- Closed instantiation of `readlinkat_wasi_grows_and_terminates` at a
300-byte target (longer than the initial 256-byte capacity, so the loop must
grow at least once) with single-byte growth. -/
theorem readlinkat_wasi_grows_and_terminates_witness :
    (_readlinkat_wasi (List.replicate 300 65) Nat.succ Nat.lt_succ_self
       5 [66]).1 = .ok (List.replicate 300 65) :=
  (readlinkat_wasi_grows_and_terminates (List.replicate 300 65) Nat.succ
    Nat.lt_succ_self 5 [66]).2.2.2

end RustixAt
